import Mathlib

/-!
Shallow embedding of the SimpleMicroservices FastAPI application
(`main.py`, `models/organization.py`, `models/house.py`; the missing
`models/address.py` and `models/person.py` are modelled from the spec).

Each HTTP handler becomes a pure Lean function over an explicit store; the
current UTC time is a parameter `now`; raised `HTTPException`s and escaping
pydantic `ValidationError`s become an `Except`-style error component.
-/

namespace Micro

/-- Opaque 128-bit identifiers (UUIDs) are modelled as natural numbers. -/
abbrev UUID := Nat

/-- Timestamps (UTC datetimes) are modelled as natural numbers; every call of
`datetime.utcnow()` inside one handler invocation is the parameter `now`. -/
abbrev Time := Nat

/-- Errors surfaced by the endpoint handlers: `HTTPException(400)` for a
duplicate identifier, `HTTPException(404)` for a missing one, and an escaping
pydantic `ValidationError` when re-validation of a merged record fails. -/
inductive ApiError
  | duplicateId
  | notFound
  | validationError
deriving DecidableEq, Repr

/-- HTTP status code attached to each error (an escaping `ValidationError` is
an internal server error). -/
def statusCode : ApiError → Nat
  | .duplicateId => 400
  | .notFound => 404
  | .validationError => 500

/-- A process-wide store (`Dict[UUID, XRead]` in `main.py`) modelled as an
insertion-ordered association list, matching Python dict semantics. -/
abbrev Store (V : Type) := List (UUID × V)

namespace Store

/-- `d.get(k)` / `d[k]`: the value at the first matching key, if any. -/
def lookup {V : Type} : Store V → UUID → Option V
  | [], _ => none
  | (k, v) :: rest, q => if k = q then some v else lookup rest q

/-- `k in d`. -/
def contains {V : Type} (s : Store V) (k : UUID) : Bool := (lookup s k).isSome

/-- `d[k] = v`: replace the value in place if the key exists, else append. -/
def set {V : Type} : Store V → UUID → V → Store V
  | [], k, v => [(k, v)]
  | (k0, v0) :: rest, k, v =>
      if k0 = k then (k0, v) :: rest else (k0, v0) :: set rest k v

/-- `list(d.values())` in insertion order. -/
def values {V : Type} (s : Store V) : List V := s.map Prod.snd

/-- `len(d)`. -/
def size {V : Type} (s : Store V) : Nat := s.length

theorem lookup_set_self {V : Type} (s : Store V) (k : UUID) (v : V) :
    lookup (set s k v) k = some v := by
  induction s with
  | nil => simp [set, lookup]
  | cons hd tl ih =>
      obtain ⟨k0, v0⟩ := hd
      by_cases h : k0 = k
      · simp [set, h, lookup]
      · simp [set, h, lookup, ih]

theorem size_set_of_contains {V : Type} (s : Store V) (k : UUID) (v : V)
    (h : contains s k = true) : size (set s k v) = size s := by
  induction s with
  | nil => simp [contains, lookup] at h
  | cons hd tl ih =>
      obtain ⟨k0, v0⟩ := hd
      by_cases hk : k0 = k
      · simp [set, hk, size]
      · simp [contains, lookup, hk] at h
        simp [set, hk, size]
        simpa [contains, size] using ih h

end Store

/-- Modelled from the spec: `models/address.py` is not among the sources.
Spec section 3: an Address carries street, city, state/region, postal code and
country, "all optional free-text fields except identifier". -/
structure AddressBase where
  id : UUID
  street : Option String
  city : Option String
  state : Option String
  postal_code : Option String
  country : Option String
deriving DecidableEq, Repr

/-- Modelled from the spec: server representation of an Address, the base
fields plus the two UTC timestamps stamped at creation. -/
structure AddressRead extends AddressBase where
  created_at : Time
  updated_at : Time
deriving DecidableEq, Repr

/-- Modelled from the spec: partial-update payload for an Address. The outer
`Option` is pydantic's set/unset distinction recovered by
`model_dump(exclude_unset=True)`; the inner `Option` is the (nullable) value:
`none` = field not supplied, `some none` = explicit `null`,
`some (some v)` = explicit value. Every Address field is nullable. -/
structure AddressUpdate where
  street : Option (Option String)
  city : Option (Option String)
  state : Option (Option String)
  postal_code : Option (Option String)
  country : Option (Option String)
deriving DecidableEq, Repr

/-- Modelled from the spec: `UNIType` lives in the missing `models/person.py`;
the spec calls it a "fixed-format token", and the repository's examples
(`abc1234`, `zde3421`) fix the format as three lowercase letters followed by
four digits. -/
def isUNI (s : String) : Bool :=
  s.length = 7 && (s.toList.take 3).all Char.isLower
    && (s.toList.drop 3).all Char.isDigit

/-- Modelled from the spec: `models/person.py` is not among the sources.
Spec section 3: "identifier, institutional short-code (UNI), first/last name,
email, phone, birth date, and an embedded collection of Address values".
`birth_date` is modelled by the string `str(p.birth_date)` that the listing
filter of `main.py` compares against. -/
structure PersonBase where
  id : UUID
  uni : String
  first_name : String
  last_name : String
  email : String
  phone : Option String
  birth_date : String
  addresses : List AddressBase
deriving DecidableEq, Repr

/-- Modelled from the spec: server representation of a Person. -/
structure PersonRead extends PersonBase where
  created_at : Time
  updated_at : Time
deriving DecidableEq, Repr

/-- Modelled from the spec: partial-update payload for a Person, each field
independently present-or-absent (spec section 9), explicit nulls only where
the stored field is nullable (`phone`). -/
structure PersonUpdate where
  uni : Option String
  first_name : Option String
  last_name : Option String
  email : Option String
  phone : Option (Option String)
  birth_date : Option String
  addresses : Option (List AddressBase)
deriving DecidableEq, Repr

/-- `OrganizationBase` from `models/organization.py`: required `org_name` and
`email`, nullable `phone`, one required embedded `AddressBase`. `EmailStr` is
modelled as an opaque string (format validation out of scope, spec section 7). -/
structure OrganizationBase where
  id : UUID
  org_name : String
  email : String
  phone : Option String
  address : AddressBase
deriving DecidableEq, Repr

/-- `OrganizationRead` from `models/organization.py`: base fields plus the two
timestamps, both defaulted to the current UTC time at construction. -/
structure OrganizationRead extends OrganizationBase where
  created_at : Time
  updated_at : Time
deriving DecidableEq, Repr

/-- `OrganizationUpdate` from `models/organization.py`: every field is
`Optional[...] = None`. Outer `Option`: supplied or not
(`model_dump(exclude_unset=True)`); inner `Option`: the possibly-null value. -/
structure OrganizationUpdate where
  org_name : Option (Option String)
  email : Option (Option String)
  phone : Option (Option String)
  address : Option (Option AddressBase)
deriving DecidableEq, Repr

/-- `HouseBase` from `models/house.py`: nullable `phone`, one required
embedded `AddressBase`, and `people : List[UNIType]`. -/
structure HouseBase where
  id : UUID
  phone : Option String
  address : AddressBase
  people : List String
deriving DecidableEq, Repr

/-- `HouseRead` from `models/house.py`. -/
structure HouseRead extends HouseBase where
  created_at : Time
  updated_at : Time
deriving DecidableEq, Repr

/-- `HouseUpdate` from `models/house.py`: note that `people` is declared
`Optional[List[UUID]]` there, although the stored field is `List[UNIType]`. -/
structure HouseUpdate where
  phone : Option (Option String)
  address : Option (Option AddressBase)
  people : Option (Option (List UUID))
deriving DecidableEq, Repr

/-- `AddressRead(**address.model_dump())`: copy the payload and stamp both
timestamps (two `datetime.utcnow` default factories) with the current time. -/
def mkAddressRead (a : AddressBase) (now : Time) : AddressRead :=
  { toAddressBase := a, created_at := now, updated_at := now }

/-- `PersonRead(**person.model_dump())`. -/
def mkPersonRead (p : PersonBase) (now : Time) : PersonRead :=
  { toPersonBase := p, created_at := now, updated_at := now }

/-- `OrganizationRead(**organization.model_dump())`. -/
def mkOrganizationRead (o : OrganizationBase) (now : Time) : OrganizationRead :=
  { toOrganizationBase := o, created_at := now, updated_at := now }

/-- `HouseRead(**house.model_dump())`: pydantic re-validates
`people : List[UNIType]`, so construction fails with a `ValidationError` when
some entry is not a UNI token. -/
def mkHouseRead (h : HouseBase) (now : Time) : Option HouseRead :=
  if h.people.all isUNI then
    some { toHouseBase := h, created_at := now, updated_at := now }
  else none

/-- `POST /addresses` (`create_address` in `main.py`): 400 if the payload's id
is already a key, else store `AddressRead(**address.model_dump())`. -/
def create_address (s : Store AddressRead) (address : AddressBase) (now : Time) :
    Except ApiError AddressRead × Store AddressRead :=
  if Store.contains s address.id then (Except.error ApiError.duplicateId, s)
  else
    let r := mkAddressRead address now
    (Except.ok r, Store.set s address.id r)

/-- `GET /addresses/{address_id}` (`get_address` in `main.py`). -/
def get_address (s : Store AddressRead) (address_id : UUID) :
    Except ApiError AddressRead :=
  match Store.lookup s address_id with
  | none => Except.error ApiError.notFound
  | some r => Except.ok r

/-- `GET /addresses` (`list_addresses` in `main.py`): the five optional
equality filters, applied in source order; a stored `None` never equals a
supplied filter string. -/
def list_addresses (s : Store AddressRead)
    (street city state postal_code country : Option String) : List AddressRead :=
  let r0 := Store.values s
  let r1 := match street with
    | none => r0
    | some v => r0.filter (fun a => a.street == some v)
  let r2 := match city with
    | none => r1
    | some v => r1.filter (fun a => a.city == some v)
  let r3 := match state with
    | none => r2
    | some v => r2.filter (fun a => a.state == some v)
  let r4 := match postal_code with
    | none => r3
    | some v => r3.filter (fun a => a.postal_code == some v)
  match country with
  | none => r4
  | some v => r4.filter (fun a => a.country == some v)

/-- Merge for `update_address`:
`stored.update(update.model_dump(exclude_unset=True))`. Every Address field is
nullable, so re-validation by `AddressRead(**stored)` never fails. -/
def applyAddressUpdate (r : AddressRead) (u : AddressUpdate) : AddressRead :=
  { r with
    street := u.street.getD r.street
    city := u.city.getD r.city
    state := u.state.getD r.state
    postal_code := u.postal_code.getD r.postal_code
    country := u.country.getD r.country }

/-- `PATCH /addresses/{address_id}` (`update_address` in `main.py`): 404 if
absent, else shallow merge, store, and stamp `updated_at` with the current
time. -/
def update_address (s : Store AddressRead) (address_id : UUID)
    (update : AddressUpdate) (now : Time) :
    Except ApiError AddressRead × Store AddressRead :=
  match Store.lookup s address_id with
  | none => (Except.error ApiError.notFound, s)
  | some stored =>
      let r := { applyAddressUpdate stored update with updated_at := now }
      (Except.ok r, Store.set s address_id r)

/-- `POST /persons` (`create_person` in `main.py`): stores the record under
the payload's id with no duplicate-identifier check. -/
def create_person (s : Store PersonRead) (person : PersonBase) (now : Time) :
    Except ApiError PersonRead × Store PersonRead :=
  let r := mkPersonRead person now
  (Except.ok r, Store.set s person.id r)

/-- `GET /persons/{person_id}` (`get_person` in `main.py`). -/
def get_person (s : Store PersonRead) (person_id : UUID) :
    Except ApiError PersonRead :=
  match Store.lookup s person_id with
  | none => Except.error ApiError.notFound
  | some r => Except.ok r

/-- `GET /persons` (`list_persons` in `main.py`): six equality filters, then
the two existential nested-address filters, in source order. -/
def list_persons (s : Store PersonRead)
    (uni first_name last_name email phone birth_date city country : Option String) :
    List PersonRead :=
  let r0 := Store.values s
  let r1 := match uni with
    | none => r0
    | some v => r0.filter (fun p => p.uni == v)
  let r2 := match first_name with
    | none => r1
    | some v => r1.filter (fun p => p.first_name == v)
  let r3 := match last_name with
    | none => r2
    | some v => r2.filter (fun p => p.last_name == v)
  let r4 := match email with
    | none => r3
    | some v => r3.filter (fun p => p.email == v)
  let r5 := match phone with
    | none => r4
    | some v => r4.filter (fun p => p.phone == some v)
  let r6 := match birth_date with
    | none => r5
    | some v => r5.filter (fun p => p.birth_date == v)
  let r7 := match city with
    | none => r6
    | some v => r6.filter (fun p => p.addresses.any (fun a => a.city == some v))
  match country with
  | none => r7
  | some v => r7.filter (fun p => p.addresses.any (fun a => a.country == some v))

/-- Merge for `update_person` (modelled from the spec for the missing
`PersonUpdate`): supplied fields overwrite, absent fields are kept. -/
def applyPersonUpdate (r : PersonRead) (u : PersonUpdate) : PersonRead :=
  { r with
    uni := u.uni.getD r.uni
    first_name := u.first_name.getD r.first_name
    last_name := u.last_name.getD r.last_name
    email := u.email.getD r.email
    phone := u.phone.getD r.phone
    birth_date := u.birth_date.getD r.birth_date
    addresses := u.addresses.getD r.addresses }

/-- `PATCH /persons/{person_id}` (`update_person` in `main.py`). -/
def update_person (s : Store PersonRead) (person_id : UUID)
    (update : PersonUpdate) (now : Time) :
    Except ApiError PersonRead × Store PersonRead :=
  match Store.lookup s person_id with
  | none => (Except.error ApiError.notFound, s)
  | some stored =>
      let r := { applyPersonUpdate stored update with updated_at := now }
      (Except.ok r, Store.set s person_id r)

/-- `POST /organization` (`create_organization` in `main.py`). -/
def create_organization (s : Store OrganizationRead) (organization : OrganizationBase)
    (now : Time) : Except ApiError OrganizationRead × Store OrganizationRead :=
  if Store.contains s organization.id then (Except.error ApiError.duplicateId, s)
  else
    let r := mkOrganizationRead organization now
    (Except.ok r, Store.set s organization.id r)

/-- `GET /organizations/{organization_id}` (`get_organization` in `main.py`). -/
def get_organization (s : Store OrganizationRead) (organization_id : UUID) :
    Except ApiError OrganizationRead :=
  match Store.lookup s organization_id with
  | none => Except.error ApiError.notFound
  | some r => Except.ok r

/-- `GET /organizations` (`list_organizations` in `main.py`): three equality
filters, then the two single-address filters (`p.address.city == city`). -/
def list_organizations (s : Store OrganizationRead)
    (org_name email phone city country : Option String) : List OrganizationRead :=
  let r0 := Store.values s
  let r1 := match org_name with
    | none => r0
    | some v => r0.filter (fun p => p.org_name == v)
  let r2 := match email with
    | none => r1
    | some v => r1.filter (fun p => p.email == v)
  let r3 := match phone with
    | none => r2
    | some v => r2.filter (fun p => p.phone == some v)
  let r4 := match city with
    | none => r3
    | some v => r3.filter (fun p => p.address.city == some v)
  match country with
  | none => r4
  | some v => r4.filter (fun p => p.address.country == some v)

/-- Merge and re-validate for `update_organization`: explicitly-null values
land in the merged dict, and `OrganizationRead(**stored)` then rejects `None`
for the non-nullable `org_name`, `email` and `address` fields
(pydantic `ValidationError`). -/
def applyOrgUpdate (r : OrganizationRead) (u : OrganizationUpdate) :
    Option OrganizationRead :=
  match u.org_name.getD (some r.org_name), u.email.getD (some r.email),
      u.address.getD (some r.address) with
  | some nm, some em, some ad =>
      some { r with
        org_name := nm
        email := em
        phone := u.phone.getD r.phone
        address := ad }
  | _, _, _ => none

/-- `PATCH /organizations/{organization_id}` (`update_organization` in
`main.py`): 404 if absent; merge; reconstructing `OrganizationRead` may raise
a `ValidationError`, in which case the store assignment never happens; on
success the new record is stored and `updated_at` stamped. -/
def update_organization (s : Store OrganizationRead) (organization_id : UUID)
    (update : OrganizationUpdate) (now : Time) :
    Except ApiError OrganizationRead × Store OrganizationRead :=
  match Store.lookup s organization_id with
  | none => (Except.error ApiError.notFound, s)
  | some stored =>
      match applyOrgUpdate stored update with
      | none => (Except.error ApiError.validationError, s)
      | some m =>
          let r := { m with updated_at := now }
          (Except.ok r, Store.set s organization_id r)

/-- `POST /house` (`create_house` in `main.py`): duplicate check first, then
`HouseRead(**house.model_dump())`, whose `people` re-validation can fail. -/
def create_house (s : Store HouseRead) (house : HouseBase) (now : Time) :
    Except ApiError HouseRead × Store HouseRead :=
  if Store.contains s house.id then (Except.error ApiError.duplicateId, s)
  else
    match mkHouseRead house now with
    | none => (Except.error ApiError.validationError, s)
    | some r => (Except.ok r, Store.set s house.id r)

/-- `GET /houses/{house_id}` (`get_house` in `main.py`). -/
def get_house (s : Store HouseRead) (house_id : UUID) : Except ApiError HouseRead :=
  match Store.lookup s house_id with
  | none => Except.error ApiError.notFound
  | some r => Except.ok r

/-- `GET /houses` (`list_houses` in `main.py`): phone, then the two
single-address filters, then the existential resident filter, in source
order. -/
def list_houses (s : Store HouseRead)
    (phone person_uni city country : Option String) : List HouseRead :=
  let r0 := Store.values s
  let r1 := match phone with
    | none => r0
    | some v => r0.filter (fun p => p.phone == some v)
  let r2 := match city with
    | none => r1
    | some v => r1.filter (fun p => p.address.city == some v)
  let r3 := match country with
    | none => r2
    | some v => r2.filter (fun p => p.address.country == some v)
  match person_uni with
  | none => r3
  | some v => r3.filter (fun p => p.people.any (fun uni => uni == v))

/-- Re-validation of the merged `people` value against the stored field's type
`List[UNIType]`: if the update did not supply `people`, the stored UNI strings
re-validate; an explicitly-null `people` is rejected (`None` is not a list);
and a supplied list consists of `UUID` objects, which pydantic string
validation rejects (`HouseUpdate.people` is `Optional[List[UUID]]` while the
stored field holds UNI strings). -/
def revalidatePeople : Option (Option (List UUID)) → List String → Option (List String)
  | none, cur => if cur.all isUNI then some cur else none
  | some none, _ => none
  | some (some _), _ => none

/-- Merge and re-validate for `update_house`: fails when an explicit null hits
the non-nullable `address`, or when the merged `people` value fails the
`List[UNIType]` re-validation. -/
def applyHouseUpdate (r : HouseRead) (u : HouseUpdate) : Option HouseRead :=
  match u.address.getD (some r.address), revalidatePeople u.people r.people with
  | some ad, some ppl =>
      some { r with
        phone := u.phone.getD r.phone
        address := ad
        people := ppl }
  | _, _ => none

/-- `PATCH /houses/{house_id}` (`update_house` in `main.py`). -/
def update_house (s : Store HouseRead) (house_id : UUID)
    (update : HouseUpdate) (now : Time) :
    Except ApiError HouseRead × Store HouseRead :=
  match Store.lookup s house_id with
  | none => (Except.error ApiError.notFound, s)
  | some stored =>
      match applyHouseUpdate stored update with
      | none => (Except.error ApiError.validationError, s)
      | some m =>
          let r := { m with updated_at := now }
          (Except.ok r, Store.set s house_id r)

/-! Concrete fixtures used by witnesses and counterexamples. -/

/-- Sample address payload (id 1). -/
def addrA : AddressBase :=
  { id := 1, street := some "1 Main St", city := some "NYC", state := none,
    postal_code := none, country := some "US" }

/-- Address store holding `addrA`, created at time 1. -/
def addrStoreA : Store AddressRead := [(1, mkAddressRead addrA 1)]

/-- Sample organization payload (id 2). -/
def orgA : OrganizationBase :=
  { id := 2, org_name := "Computer Science", email := "cs@columbia.edu",
    phone := some "+1-212-555-0199", address := addrA }

/-- Organization store holding `orgA`, created at time 1. -/
def orgStoreA : Store OrganizationRead := [(2, mkOrganizationRead orgA 1)]

/-- Sample person payload (id 3). -/
def personA : PersonBase :=
  { id := 3, uni := "abc1234", first_name := "Ada", last_name := "Lovelace",
    email := "ada@columbia.edu", phone := none, birth_date := "1815-12-10",
    addresses := [addrA] }

/-- Person store holding `personA`, created at time 1. -/
def personStoreA : Store PersonRead := [(3, mkPersonRead personA 1)]

/-- Sample house payload (id 4), one resident UNI. -/
def houseA : HouseBase :=
  { id := 4, phone := none, address := addrA, people := ["abc1234"] }

/-- The stored form of `houseA`, created at time 1. -/
def houseReadA : HouseRead :=
  { toHouseBase := houseA, created_at := 1, updated_at := 1 }

/-- House store holding `houseReadA`. -/
def houseStoreA : Store HouseRead := [(4, houseReadA)]

/-- An address update payload supplying only `city`. -/
def addrUpdCity : AddressUpdate :=
  { street := none, city := some (some "Boston"), state := none,
    postal_code := none, country := none }

/-- An empty address update payload (nothing supplied). -/
def addrUpdNone : AddressUpdate :=
  { street := none, city := none, state := none, postal_code := none,
    country := none }

/-- An empty person update payload. -/
def personUpdNone : PersonUpdate :=
  { uni := none, first_name := none, last_name := none, email := none,
    phone := none, birth_date := none, addresses := none }

/-- A person update payload supplying only `first_name`. -/
def personUpdName : PersonUpdate :=
  { uni := none, first_name := some "Augusta", last_name := none, email := none,
    phone := none, birth_date := none, addresses := none }

/-- An empty organization update payload. -/
def orgUpdNone : OrganizationUpdate :=
  { org_name := none, email := none, phone := none, address := none }

/-- An organization update payload supplying only `org_name` (with a value). -/
def orgUpdName : OrganizationUpdate :=
  { org_name := some (some "Math"), email := none, phone := none, address := none }

/-- An organization update payload whose `org_name` is explicitly `null`
(JSON body `{"org_name": null}`, a legal `OrganizationUpdate`). -/
def orgUpdNullName : OrganizationUpdate :=
  { org_name := some none, email := none, phone := none, address := none }

/-- An empty house update payload. -/
def houseUpdNone : HouseUpdate :=
  { phone := none, address := none, people := none }

/-- A house update payload supplying only `phone`. -/
def houseUpdPhone : HouseUpdate :=
  { phone := some (some "+1-415-555-0199"), address := none, people := none }

/-- A house update payload supplying a `people` list; per `HouseUpdate` its
entries are UUIDs (the decoded form of a body such as
`{"people": ["550e8400-..."]}`). -/
def houseUpdPeople : HouseUpdate :=
  { phone := none, address := none, people := some (some [99]) }

/-- A supplied-or-kept merge value over a set/unset-and-nullable field is
non-null as soon as the payload does not carry an explicit null. -/
theorem getD_some_of_ne_null {α : Type} (o : Option (Option α)) (c : α)
    (h : o ≠ some none) : ∃ w, o.getD (some c) = some w := by
  match o with
  | none => exact ⟨c, rfl⟩
  | some none => exact absurd rfl h
  | some (some w) => exact ⟨w, rfl⟩

/-- A successful Organization merge keeps the stored `created_at`. -/
theorem applyOrgUpdate_created_at {r : OrganizationRead} {u : OrganizationUpdate}
    {m : OrganizationRead} (h : applyOrgUpdate r u = some m) :
    m.created_at = r.created_at := by
  unfold applyOrgUpdate at h
  split at h
  · injection h with h
    subst h
    rfl
  all_goals exact Option.noConfusion h

/-- A successful Organization merge keeps the stored `id`. -/
theorem applyOrgUpdate_id {r : OrganizationRead} {u : OrganizationUpdate}
    {m : OrganizationRead} (h : applyOrgUpdate r u = some m) : m.id = r.id := by
  unfold applyOrgUpdate at h
  split at h
  · injection h with h
    subst h
    rfl
  all_goals exact Option.noConfusion h

/-- A successful House merge keeps the stored `created_at`. -/
theorem applyHouseUpdate_created_at {r : HouseRead} {u : HouseUpdate}
    {m : HouseRead} (h : applyHouseUpdate r u = some m) :
    m.created_at = r.created_at := by
  unfold applyHouseUpdate at h
  split at h
  · injection h with h
    subst h
    rfl
  all_goals exact Option.noConfusion h

/-- A successful `HouseRead` construction stamps both timestamps with `now`
and copies the payload. -/
theorem mkHouseRead_some {h : HouseBase} {now : Time} {r : HouseRead}
    (hm : mkHouseRead h now = some r) :
    r = { toHouseBase := h, created_at := now, updated_at := now } := by
  unfold mkHouseRead at hm
  split at hm
  · injection hm with hm
    exact hm.symm
  · exact Option.noConfusion hm

/-! Claim theorems. -/

/-- C8: for every entity kind and every store state, List with no filters
supplied returns every record currently in that kind's store. -/
theorem list_no_filters_returns_all :
    (∀ s : Store AddressRead,
        list_addresses s none none none none none = Store.values s) ∧
    (∀ s : Store PersonRead,
        list_persons s none none none none none none none none = Store.values s) ∧
    (∀ s : Store OrganizationRead,
        list_organizations s none none none none none = Store.values s) ∧
    (∀ s : Store HouseRead,
        list_houses s none none none none = Store.values s) :=
  ⟨fun _ => rfl, fun _ => rfl, fun _ => rfl, fun _ => rfl⟩

/-- C3: Create Person never fails with DuplicateIdentifier: for every Person
store state and every payload (including one whose identifier is already a key
of the store) the create operation succeeds and returns the stored
`PersonRead`; the duplicate-identifier check of the other kinds is absent. -/
theorem create_person_never_duplicate :
    ∀ (s : Store PersonRead) (p : PersonBase) (now : Time),
      (create_person s p now).1 = Except.ok (mkPersonRead p now) :=
  fun _ _ _ => rfl

/-- C10: creating a Person whose payload id is already a key silently replaces
the stored record: afterwards the store maps that id to the new record and the
store's size is unchanged. -/
theorem create_person_duplicate_replaces :
    ∀ (s : Store PersonRead) (p : PersonBase) (now : Time),
      Store.contains s p.id = true →
        create_person s p now =
          (Except.ok (mkPersonRead p now), Store.set s p.id (mkPersonRead p now)) ∧
        Store.lookup (Store.set s p.id (mkPersonRead p now)) p.id =
          some (mkPersonRead p now) ∧
        Store.size (Store.set s p.id (mkPersonRead p now)) = Store.size s := by
  intro s p now h
  exact ⟨rfl, Store.lookup_set_self s p.id (mkPersonRead p now),
    Store.size_set_of_contains s p.id (mkPersonRead p now) h⟩

/-- Witness for C10: `personStoreA` already holds id 3; creating a second
person with id 3 replaces it and keeps the size at 1. -/
theorem create_person_duplicate_replaces_witness :
    Store.contains personStoreA personA.id = true ∧
    (create_person personStoreA personA 9 =
      (Except.ok (mkPersonRead personA 9),
        Store.set personStoreA personA.id (mkPersonRead personA 9)) ∧
     Store.lookup (Store.set personStoreA personA.id (mkPersonRead personA 9))
        personA.id = some (mkPersonRead personA 9) ∧
     Store.size (Store.set personStoreA personA.id (mkPersonRead personA 9)) =
        Store.size personStoreA) :=
  ⟨by decide, create_person_duplicate_replaces personStoreA personA 9 (by decide)⟩

/-- C2: for Address, Organization and House, Create with a payload whose id is
already a key fails with the duplicate-identifier error (HTTP 400) and leaves
the store exactly as it was. -/
theorem create_duplicate_rejected :
    (∀ (s : Store AddressRead) (a : AddressBase) (now : Time),
        Store.contains s a.id = true →
          create_address s a now = (Except.error ApiError.duplicateId, s)) ∧
    (∀ (s : Store OrganizationRead) (o : OrganizationBase) (now : Time),
        Store.contains s o.id = true →
          create_organization s o now = (Except.error ApiError.duplicateId, s)) ∧
    (∀ (s : Store HouseRead) (h : HouseBase) (now : Time),
        Store.contains s h.id = true →
          create_house s h now = (Except.error ApiError.duplicateId, s)) ∧
    statusCode ApiError.duplicateId = 400 := by
  refine ⟨?_, ?_, ?_, rfl⟩ <;> intro s x now h <;>
    simp [create_address, create_organization, create_house, h]

/-- Witness for C2: re-creating `addrA`, `orgA` and `houseA` in stores that
already hold their ids is rejected with the stores untouched. -/
theorem create_duplicate_rejected_witness :
    Store.contains addrStoreA addrA.id = true ∧
    create_address addrStoreA addrA 9 = (Except.error ApiError.duplicateId, addrStoreA) ∧
    create_organization orgStoreA orgA 9 = (Except.error ApiError.duplicateId, orgStoreA) ∧
    create_house houseStoreA houseA 9 = (Except.error ApiError.duplicateId, houseStoreA) :=
  ⟨by decide,
   create_duplicate_rejected.1 addrStoreA addrA 9 (by decide),
   create_duplicate_rejected.2.1 orgStoreA orgA 9 (by decide),
   create_duplicate_rejected.2.2.1 houseStoreA houseA 9 (by decide)⟩

/-- C5: listing Persons with `city = X` and `country = Y` (all other filters
absent) returns exactly the stored persons having at least one embedded
address with that city and at least one with that country; the two
existentials are independent and combine by AND. -/
theorem list_persons_city_country_filters :
    ∀ (s : Store PersonRead) (X Y : String) (p : PersonRead),
      p ∈ list_persons s none none none none none none (some X) (some Y) ↔
        p ∈ Store.values s ∧
          (∃ a ∈ p.addresses, a.city = some X) ∧
          (∃ a ∈ p.addresses, a.country = some Y) := by
  intro s X Y p
  simp [list_persons, List.mem_filter, List.any_eq_true, and_assoc]
  tauto

/-- C7: for every entity kind, Get and Update on an identifier that is not a
key of the store fail with the not-found error (HTTP 404) and leave the store
exactly as it was. -/
theorem get_update_not_found :
    (∀ (s : Store AddressRead) (k : UUID), Store.lookup s k = none →
        get_address s k = Except.error ApiError.notFound ∧
        ∀ (u : AddressUpdate) (now : Time),
          update_address s k u now = (Except.error ApiError.notFound, s)) ∧
    (∀ (s : Store PersonRead) (k : UUID), Store.lookup s k = none →
        get_person s k = Except.error ApiError.notFound ∧
        ∀ (u : PersonUpdate) (now : Time),
          update_person s k u now = (Except.error ApiError.notFound, s)) ∧
    (∀ (s : Store OrganizationRead) (k : UUID), Store.lookup s k = none →
        get_organization s k = Except.error ApiError.notFound ∧
        ∀ (u : OrganizationUpdate) (now : Time),
          update_organization s k u now = (Except.error ApiError.notFound, s)) ∧
    (∀ (s : Store HouseRead) (k : UUID), Store.lookup s k = none →
        get_house s k = Except.error ApiError.notFound ∧
        ∀ (u : HouseUpdate) (now : Time),
          update_house s k u now = (Except.error ApiError.notFound, s)) ∧
    statusCode ApiError.notFound = 404 := by
  refine ⟨?_, ?_, ?_, ?_, rfl⟩ <;> intro s k h <;>
    exact ⟨by simp [get_address, get_person, get_organization, get_house, h],
      fun u now => by
        simp [update_address, update_person, update_organization, update_house, h]⟩

/-- Witness for C7: id 99 is absent from all four sample stores. -/
theorem get_update_not_found_witness :
    get_address addrStoreA 99 = Except.error ApiError.notFound ∧
    update_address addrStoreA 99 addrUpdNone 7 = (Except.error ApiError.notFound, addrStoreA) ∧
    get_person personStoreA 99 = Except.error ApiError.notFound ∧
    update_person personStoreA 99 personUpdNone 7 = (Except.error ApiError.notFound, personStoreA) ∧
    get_organization orgStoreA 99 = Except.error ApiError.notFound ∧
    update_organization orgStoreA 99 orgUpdNone 7 = (Except.error ApiError.notFound, orgStoreA) ∧
    get_house houseStoreA 99 = Except.error ApiError.notFound ∧
    update_house houseStoreA 99 houseUpdNone 7 = (Except.error ApiError.notFound, houseStoreA) :=
  ⟨(get_update_not_found.1 addrStoreA 99 (by decide)).1,
   (get_update_not_found.1 addrStoreA 99 (by decide)).2 addrUpdNone 7,
   (get_update_not_found.2.1 personStoreA 99 (by decide)).1,
   (get_update_not_found.2.1 personStoreA 99 (by decide)).2 personUpdNone 7,
   (get_update_not_found.2.2.1 orgStoreA 99 (by decide)).1,
   (get_update_not_found.2.2.1 orgStoreA 99 (by decide)).2 orgUpdNone 7,
   (get_update_not_found.2.2.2.1 houseStoreA 99 (by decide)).1,
   (get_update_not_found.2.2.2.1 houseStoreA 99 (by decide)).2 houseUpdNone 7⟩

/-- Frame property of one Address update: the result record overwrites exactly
the supplied fields (`getD` keeps the stored value when unset), keeps the id
and `created_at`, and moves `updated_at` to `now`, strictly above its prior
value. -/
def AddressFrame (s : Store AddressRead) (k : UUID) (u : AddressUpdate)
    (now : Time) (r : AddressRead) : Prop :=
  ∃ r', update_address s k u now = (Except.ok r', Store.set s k r') ∧
    r'.id = r.id ∧
    r'.street = u.street.getD r.street ∧
    r'.city = u.city.getD r.city ∧
    r'.state = u.state.getD r.state ∧
    r'.postal_code = u.postal_code.getD r.postal_code ∧
    r'.country = u.country.getD r.country ∧
    r'.created_at = r.created_at ∧
    r'.updated_at = now ∧
    r.updated_at < r'.updated_at

/-- Frame property of one Person update. -/
def PersonFrame (s : Store PersonRead) (k : UUID) (u : PersonUpdate)
    (now : Time) (r : PersonRead) : Prop :=
  ∃ r', update_person s k u now = (Except.ok r', Store.set s k r') ∧
    r'.id = r.id ∧
    r'.uni = u.uni.getD r.uni ∧
    r'.first_name = u.first_name.getD r.first_name ∧
    r'.last_name = u.last_name.getD r.last_name ∧
    r'.email = u.email.getD r.email ∧
    r'.phone = u.phone.getD r.phone ∧
    r'.birth_date = u.birth_date.getD r.birth_date ∧
    r'.addresses = u.addresses.getD r.addresses ∧
    r'.created_at = r.created_at ∧
    r'.updated_at = now ∧
    r.updated_at < r'.updated_at

/-- Frame property of one Organization update; for the non-nullable fields the
equation `some r'.f = u.f.getD (some r.f)` says: kept when unset, overwritten
with the supplied value otherwise. -/
def OrganizationFrame (s : Store OrganizationRead) (k : UUID)
    (u : OrganizationUpdate) (now : Time) (r : OrganizationRead) : Prop :=
  ∃ r', update_organization s k u now = (Except.ok r', Store.set s k r') ∧
    r'.id = r.id ∧
    some r'.org_name = u.org_name.getD (some r.org_name) ∧
    some r'.email = u.email.getD (some r.email) ∧
    r'.phone = u.phone.getD r.phone ∧
    some r'.address = u.address.getD (some r.address) ∧
    r'.created_at = r.created_at ∧
    r'.updated_at = now ∧
    r.updated_at < r'.updated_at

/-- Frame property of one House update (the payload leaves `people` unset, so
the stored resident list is kept). -/
def HouseFrame (s : Store HouseRead) (k : UUID) (u : HouseUpdate)
    (now : Time) (r : HouseRead) : Prop :=
  ∃ r', update_house s k u now = (Except.ok r', Store.set s k r') ∧
    r'.id = r.id ∧
    r'.phone = u.phone.getD r.phone ∧
    some r'.address = u.address.getD (some r.address) ∧
    r'.people = r.people ∧
    r'.created_at = r.created_at ∧
    r'.updated_at = now ∧
    r.updated_at < r'.updated_at

/-- C1 (amended): for a stored record and a partial payload whose supplied
values re-validate against the stored model — no explicit null on a
non-nullable field (Organization's `org_name`/`email`/`address`, House's
`address`) and, for House, no `people` field at all (its `List[UUID]` type
never re-validates against the stored `List[UNIType]`) — Update overwrites
exactly the supplied fields, keeps every absent field, and sets `updated_at`
to the current time, strictly above its prior value whenever the clock has
advanced past it. -/
theorem update_partial_merge :
    (∀ (s : Store AddressRead) (k : UUID) (u : AddressUpdate) (now : Time)
        (r : AddressRead), Store.lookup s k = some r → r.updated_at < now →
          AddressFrame s k u now r) ∧
    (∀ (s : Store PersonRead) (k : UUID) (u : PersonUpdate) (now : Time)
        (r : PersonRead), Store.lookup s k = some r → r.updated_at < now →
          PersonFrame s k u now r) ∧
    (∀ (s : Store OrganizationRead) (k : UUID) (u : OrganizationUpdate)
        (now : Time) (r : OrganizationRead),
        Store.lookup s k = some r → r.updated_at < now →
          u.org_name ≠ some none → u.email ≠ some none → u.address ≠ some none →
            OrganizationFrame s k u now r) ∧
    (∀ (s : Store HouseRead) (k : UUID) (u : HouseUpdate) (now : Time)
        (r : HouseRead), Store.lookup s k = some r → r.updated_at < now →
          u.address ≠ some none → u.people = none → r.people.all isUNI = true →
            HouseFrame s k u now r) := by
  refine ⟨?_, ?_, ?_, ?_⟩
  · intro s k u now r hl hc
    refine ⟨{ applyAddressUpdate r u with updated_at := now },
      ?_, rfl, rfl, rfl, rfl, rfl, rfl, rfl, rfl, hc⟩
    simp [update_address, hl]
  · intro s k u now r hl hc
    refine ⟨{ applyPersonUpdate r u with updated_at := now },
      ?_, rfl, rfl, rfl, rfl, rfl, rfl, rfl, rfl, rfl, rfl, hc⟩
    simp [update_person, hl]
  · intro s k u now r hl hc h1 h2 h3
    obtain ⟨nm, hnm⟩ := getD_some_of_ne_null u.org_name r.org_name h1
    obtain ⟨em, hem⟩ := getD_some_of_ne_null u.email r.email h2
    obtain ⟨ad, had⟩ := getD_some_of_ne_null u.address r.address h3
    refine ⟨{ r with
        org_name := nm
        email := em
        phone := u.phone.getD r.phone
        address := ad
        updated_at := now },
      ?_, rfl, ?_, ?_, rfl, ?_, rfl, rfl, hc⟩
    · simp [update_organization, hl, applyOrgUpdate, hnm, hem, had]
    · rw [hnm]
    · rw [hem]
    · rw [had]
  · intro s k u now r hl hc h1 hp hv
    obtain ⟨ad, had⟩ := getD_some_of_ne_null u.address r.address h1
    refine ⟨{ r with
        phone := u.phone.getD r.phone
        address := ad
        people := r.people
        updated_at := now },
      ?_, rfl, rfl, ?_, rfl, rfl, rfl, hc⟩
    · simp [update_house, hl, applyHouseUpdate, had, hp, revalidatePeople, hv]
    · rw [had]

/-- Witness for C1: one concrete update per entity kind, each supplying one
field, applied to the sample stores at time 5. -/
theorem update_partial_merge_witness :
    AddressFrame addrStoreA 1 addrUpdCity 5 (mkAddressRead addrA 1) ∧
    PersonFrame personStoreA 3 personUpdName 5 (mkPersonRead personA 1) ∧
    OrganizationFrame orgStoreA 2 orgUpdName 5 (mkOrganizationRead orgA 1) ∧
    HouseFrame houseStoreA 4 houseUpdPhone 5 houseReadA :=
  ⟨update_partial_merge.1 addrStoreA 1 addrUpdCity 5 (mkAddressRead addrA 1)
      (by decide) (by decide),
   update_partial_merge.2.1 personStoreA 3 personUpdName 5 (mkPersonRead personA 1)
      (by decide) (by decide),
   update_partial_merge.2.2.1 orgStoreA 2 orgUpdName 5 (mkOrganizationRead orgA 1)
      (by decide) (by decide) (by decide) (by decide) (by decide),
   update_partial_merge.2.2.2 houseStoreA 4 houseUpdPhone 5 houseReadA
      (by decide) (by decide) (by decide) (by decide) (by decide)⟩

/-- Counterexample to C1 as stated: the payload `{"org_name": null}` is a
legal `OrganizationUpdate` that explicitly supplies `org_name`, yet the merged
record fails the `OrganizationRead` re-validation, so the handler raises
instead of overwriting: the store is returned unchanged and the stored
record's `updated_at` still reads its old value 1, not the current time 5. -/
theorem update_partial_merge_counterexample :
    ¬ OrganizationFrame orgStoreA 2 orgUpdNullName 5 (mkOrganizationRead orgA 1) ∧
    update_organization orgStoreA 2 orgUpdNullName 5 =
      (Except.error ApiError.validationError, orgStoreA) ∧
    Store.lookup orgStoreA 2 = some (mkOrganizationRead orgA 1) ∧
    (mkOrganizationRead orgA 1).updated_at = 1 := by
  refine ⟨?_, rfl, rfl, rfl⟩
  rintro ⟨r', heq, -⟩
  have h0 : update_organization orgStoreA 2 orgUpdNullName 5 =
      (Except.error ApiError.validationError, orgStoreA) := rfl
  rw [h0] at heq
  simp at heq

/-- Round-trip property of one Address create: the create succeeds, a Get with
the returned id yields the very record, every payload field is preserved
verbatim, and both timestamps coincide. -/
def AddressRoundTrip (s : Store AddressRead) (a : AddressBase) (now : Time) : Prop :=
  ∃ r, create_address s a now = (Except.ok r, Store.set s a.id r) ∧
    get_address (Store.set s a.id r) a.id = Except.ok r ∧
    r.toAddressBase = a ∧ r.created_at = r.updated_at

/-- Round-trip property of one Person create. -/
def PersonRoundTrip (s : Store PersonRead) (p : PersonBase) (now : Time) : Prop :=
  ∃ r, create_person s p now = (Except.ok r, Store.set s p.id r) ∧
    get_person (Store.set s p.id r) p.id = Except.ok r ∧
    r.toPersonBase = p ∧ r.created_at = r.updated_at

/-- Round-trip property of one Organization create. -/
def OrganizationRoundTrip (s : Store OrganizationRead) (o : OrganizationBase)
    (now : Time) : Prop :=
  ∃ r, create_organization s o now = (Except.ok r, Store.set s o.id r) ∧
    get_organization (Store.set s o.id r) o.id = Except.ok r ∧
    r.toOrganizationBase = o ∧ r.created_at = r.updated_at

/-- Round-trip property of one House create. -/
def HouseRoundTrip (s : Store HouseRead) (h : HouseBase) (now : Time) : Prop :=
  ∃ r, create_house s h now = (Except.ok r, Store.set s h.id r) ∧
    get_house (Store.set s h.id r) h.id = Except.ok r ∧
    r.toHouseBase = h ∧ r.created_at = r.updated_at

/-- C6: for every entity kind, creating an entity (id not already taken for
the kinds that check; a structurally valid resident list for House) and then
Get with the returned identifier yields a record with `created_at` equal to
`updated_at` and every client-supplied field unchanged. Person creation needs
no precondition. -/
theorem create_then_get_roundtrip :
    (∀ (s : Store AddressRead) (a : AddressBase) (now : Time),
        Store.contains s a.id = false → AddressRoundTrip s a now) ∧
    (∀ (s : Store PersonRead) (p : PersonBase) (now : Time),
        PersonRoundTrip s p now) ∧
    (∀ (s : Store OrganizationRead) (o : OrganizationBase) (now : Time),
        Store.contains s o.id = false → OrganizationRoundTrip s o now) ∧
    (∀ (s : Store HouseRead) (h : HouseBase) (now : Time),
        Store.contains s h.id = false → h.people.all isUNI = true →
          HouseRoundTrip s h now) := by
  refine ⟨?_, ?_, ?_, ?_⟩
  · intro s a now hc
    refine ⟨mkAddressRead a now, ?_, ?_, rfl, rfl⟩
    · simp [create_address, hc]
    · simp [get_address, Store.lookup_set_self]
  · intro s p now
    refine ⟨mkPersonRead p now, rfl, ?_, rfl, rfl⟩
    simp [get_person, Store.lookup_set_self]
  · intro s o now hc
    refine ⟨mkOrganizationRead o now, ?_, ?_, rfl, rfl⟩
    · simp [create_organization, hc]
    · simp [get_organization, Store.lookup_set_self]
  · intro s h now hc hv
    refine ⟨{ toHouseBase := h, created_at := now, updated_at := now }, ?_, ?_, rfl, rfl⟩
    · simp [create_house, hc, mkHouseRead, hv]
    · simp [get_house, Store.lookup_set_self]

/-- Witness for C6: each sample payload created in an empty store at time 5. -/
theorem create_then_get_roundtrip_witness :
    AddressRoundTrip [] addrA 5 ∧ PersonRoundTrip [] personA 5 ∧
    OrganizationRoundTrip [] orgA 5 ∧ HouseRoundTrip [] houseA 5 :=
  ⟨create_then_get_roundtrip.1 [] addrA 5 (by decide),
   create_then_get_roundtrip.2.1 [] personA 5,
   create_then_get_roundtrip.2.2.1 [] orgA 5 (by decide),
   create_then_get_roundtrip.2.2.2 [] houseA 5 (by decide) (by decide)⟩

/-- Result of updating the sample address with `addrUpdCity` at time 5. -/
def addrReadB : AddressRead :=
  { applyAddressUpdate (mkAddressRead addrA 1) addrUpdCity with updated_at := 5 }

/-- Result of updating the sample person with `personUpdName` at time 5. -/
def personReadB : PersonRead :=
  { applyPersonUpdate (mkPersonRead personA 1) personUpdName with updated_at := 5 }

/-- Result of updating the sample organization with `orgUpdName` at time 5. -/
def orgReadB : OrganizationRead :=
  { mkOrganizationRead orgA 1 with org_name := "Math", updated_at := 5 }

/-- Result of updating the sample house with `houseUpdPhone` at time 5. -/
def houseReadB : HouseRead :=
  { houseReadA with phone := some "+1-415-555-0199", updated_at := 5 }

/-- The stored form of `houseA` created at time 5. -/
def houseReadC : HouseRead :=
  { toHouseBase := houseA, created_at := 5, updated_at := 5 }

/-- C9: for every stored record `updated_at` is at least `created_at`: Create
stamps both timestamps with the same instant, and a successful Update keeps
`created_at` and moves `updated_at` to the current time, which is at least
`created_at` whenever the clock has not gone backwards since the last stamp. -/
theorem timestamps_invariant :
    (∀ (s : Store AddressRead) (a : AddressBase) (now : Time) (r : AddressRead)
        (s2 : Store AddressRead),
        create_address s a now = (Except.ok r, s2) →
          r.created_at = r.updated_at) ∧
    (∀ (s : Store PersonRead) (p : PersonBase) (now : Time) (r : PersonRead)
        (s2 : Store PersonRead),
        create_person s p now = (Except.ok r, s2) →
          r.created_at = r.updated_at) ∧
    (∀ (s : Store OrganizationRead) (o : OrganizationBase) (now : Time)
        (r : OrganizationRead) (s2 : Store OrganizationRead),
        create_organization s o now = (Except.ok r, s2) →
          r.created_at = r.updated_at) ∧
    (∀ (s : Store HouseRead) (hs : HouseBase) (now : Time) (r : HouseRead)
        (s2 : Store HouseRead),
        create_house s hs now = (Except.ok r, s2) →
          r.created_at = r.updated_at) ∧
    (∀ (s : Store AddressRead) (k : UUID) (u : AddressUpdate) (now : Time)
        (r0 r : AddressRead) (s2 : Store AddressRead),
        Store.lookup s k = some r0 → r0.created_at ≤ r0.updated_at →
          r0.updated_at ≤ now → update_address s k u now = (Except.ok r, s2) →
            r.created_at = r0.created_at ∧ r.updated_at = now ∧
              r.created_at ≤ r.updated_at) ∧
    (∀ (s : Store PersonRead) (k : UUID) (u : PersonUpdate) (now : Time)
        (r0 r : PersonRead) (s2 : Store PersonRead),
        Store.lookup s k = some r0 → r0.created_at ≤ r0.updated_at →
          r0.updated_at ≤ now → update_person s k u now = (Except.ok r, s2) →
            r.created_at = r0.created_at ∧ r.updated_at = now ∧
              r.created_at ≤ r.updated_at) ∧
    (∀ (s : Store OrganizationRead) (k : UUID) (u : OrganizationUpdate)
        (now : Time) (r0 r : OrganizationRead) (s2 : Store OrganizationRead),
        Store.lookup s k = some r0 → r0.created_at ≤ r0.updated_at →
          r0.updated_at ≤ now →
            update_organization s k u now = (Except.ok r, s2) →
              r.created_at = r0.created_at ∧ r.updated_at = now ∧
                r.created_at ≤ r.updated_at) ∧
    (∀ (s : Store HouseRead) (k : UUID) (u : HouseUpdate) (now : Time)
        (r0 r : HouseRead) (s2 : Store HouseRead),
        Store.lookup s k = some r0 → r0.created_at ≤ r0.updated_at →
          r0.updated_at ≤ now → update_house s k u now = (Except.ok r, s2) →
            r.created_at = r0.created_at ∧ r.updated_at = now ∧
              r.created_at ≤ r.updated_at) := by
  refine ⟨?_, ?_, ?_, ?_, ?_, ?_, ?_, ?_⟩
  · intro s a now r s2 h
    by_cases hc : Store.contains s a.id
    · simp [create_address, hc] at h
    · simp [create_address, hc] at h
      obtain ⟨h1, -⟩ := h
      subst h1
      rfl
  · intro s p now r s2 h
    simp [create_person] at h
    obtain ⟨h1, -⟩ := h
    subst h1
    rfl
  · intro s o now r s2 h
    by_cases hc : Store.contains s o.id
    · simp [create_organization, hc] at h
    · simp [create_organization, hc] at h
      obtain ⟨h1, -⟩ := h
      subst h1
      rfl
  · intro s hs now r s2 h
    by_cases hc : Store.contains s hs.id
    · simp [create_house, hc] at h
    · cases hm : mkHouseRead hs now with
      | none => simp [create_house, hc, hm] at h
      | some r0 =>
          simp [create_house, hc, hm] at h
          obtain ⟨h1, -⟩ := h
          subst h1
          rw [mkHouseRead_some hm]
  · intro s k u now r0 r s2 hl hinv hclk h
    simp [update_address, hl] at h
    obtain ⟨h1, -⟩ := h
    subst h1
    refine ⟨rfl, rfl, ?_⟩
    show r0.created_at ≤ now
    exact le_trans hinv hclk
  · intro s k u now r0 r s2 hl hinv hclk h
    simp [update_person, hl] at h
    obtain ⟨h1, -⟩ := h
    subst h1
    refine ⟨rfl, rfl, ?_⟩
    show r0.created_at ≤ now
    exact le_trans hinv hclk
  · intro s k u now r0 r s2 hl hinv hclk h
    cases ha : applyOrgUpdate r0 u with
    | none => simp [update_organization, hl, ha] at h
    | some m =>
        simp [update_organization, hl, ha] at h
        obtain ⟨h1, -⟩ := h
        subst h1
        have hcr := applyOrgUpdate_created_at ha
        refine ⟨hcr, rfl, ?_⟩
        show m.created_at ≤ now
        rw [hcr]
        exact le_trans hinv hclk
  · intro s k u now r0 r s2 hl hinv hclk h
    cases ha : applyHouseUpdate r0 u with
    | none => simp [update_house, hl, ha] at h
    | some m =>
        simp [update_house, hl, ha] at h
        obtain ⟨h1, -⟩ := h
        subst h1
        have hcr := applyHouseUpdate_created_at ha
        refine ⟨hcr, rfl, ?_⟩
        show m.created_at ≤ now
        rw [hcr]
        exact le_trans hinv hclk

/-- Witness for C9: the four sample creates at time 5 stamp equal timestamps,
and the four sample updates at time 5 keep `created_at` (= 1) while raising
`updated_at` to 5. -/
theorem timestamps_invariant_witness :
    ((mkAddressRead addrA 5).created_at = (mkAddressRead addrA 5).updated_at) ∧
    ((mkPersonRead personA 5).created_at = (mkPersonRead personA 5).updated_at) ∧
    ((mkOrganizationRead orgA 5).created_at = (mkOrganizationRead orgA 5).updated_at) ∧
    (houseReadC.created_at = houseReadC.updated_at) ∧
    (addrReadB.created_at = (mkAddressRead addrA 1).created_at ∧
      addrReadB.updated_at = 5 ∧ addrReadB.created_at ≤ addrReadB.updated_at) ∧
    (personReadB.created_at = (mkPersonRead personA 1).created_at ∧
      personReadB.updated_at = 5 ∧ personReadB.created_at ≤ personReadB.updated_at) ∧
    (orgReadB.created_at = (mkOrganizationRead orgA 1).created_at ∧
      orgReadB.updated_at = 5 ∧ orgReadB.created_at ≤ orgReadB.updated_at) ∧
    (houseReadB.created_at = houseReadA.created_at ∧
      houseReadB.updated_at = 5 ∧ houseReadB.created_at ≤ houseReadB.updated_at) :=
  ⟨timestamps_invariant.1 [] addrA 5 (mkAddressRead addrA 5)
      (Store.set [] addrA.id (mkAddressRead addrA 5)) rfl,
   timestamps_invariant.2.1 [] personA 5 (mkPersonRead personA 5)
      (Store.set [] personA.id (mkPersonRead personA 5)) rfl,
   timestamps_invariant.2.2.1 [] orgA 5 (mkOrganizationRead orgA 5)
      (Store.set [] orgA.id (mkOrganizationRead orgA 5)) rfl,
   timestamps_invariant.2.2.2.1 [] houseA 5 houseReadC
      (Store.set [] houseA.id houseReadC) rfl,
   timestamps_invariant.2.2.2.2.1 addrStoreA 1 addrUpdCity 5
      (mkAddressRead addrA 1) addrReadB (Store.set addrStoreA 1 addrReadB)
      rfl (by decide) (by decide) rfl,
   timestamps_invariant.2.2.2.2.2.1 personStoreA 3 personUpdName 5
      (mkPersonRead personA 1) personReadB (Store.set personStoreA 3 personReadB)
      rfl (by decide) (by decide) rfl,
   timestamps_invariant.2.2.2.2.2.2.1 orgStoreA 2 orgUpdName 5
      (mkOrganizationRead orgA 1) orgReadB (Store.set orgStoreA 2 orgReadB)
      rfl (by decide) (by decide) rfl,
   timestamps_invariant.2.2.2.2.2.2.2 houseStoreA 4 houseUpdPhone 5
      houseReadA houseReadB (Store.set houseStoreA 4 houseReadB)
      rfl (by decide) (by decide) rfl⟩

/-- C4 (the code contradicts its own field documentation): `HouseUpdate.people`
is typed `Optional[List[UUID]]` although the stored field is `List[UNIType]`
and the field's own description and examples show UNI strings. Consequently
the spec's scenario cannot succeed: after creating the house with
`people = ["abc1234"]`, a partial update supplying `people` (here a decoded
UUID list) fails the `HouseRead` re-validation, the handler raises instead of
storing, and a subsequent Get still shows `["abc1234"]`, never the new list. -/
theorem house_people_update_rejected :
    create_house [] houseA 1 = (Except.ok houseReadA, houseStoreA) ∧
    update_house houseStoreA 4 houseUpdPeople 2 =
      (Except.error ApiError.validationError, houseStoreA) ∧
    get_house houseStoreA 4 = Except.ok houseReadA ∧
    houseReadA.people = ["abc1234"] :=
  ⟨rfl, rfl, rfl, rfl⟩

end Micro
